import Mathlib

/-!
Verification of the IntuneBackupRestore exporter / diff generator.

Shallow embedding of the Python sources under `src/`:
* `src/utils/diff_generator.py` — `DiffGenerator`
* `src/modules/python/export_applications.py` — `ApplicationExporter`
* `src/modules/python/export_compliance_policies.py` — `CompliancePolicyExporter`
* `src/utils/auth.py` — `GraphAuthenticator`
* `src/export_runner.py` — CLI entry point

JSON documents are modelled by the inductive `JVal`; Python dicts whose keys
are strings become association lists (`JObj`).  Python exceptions become
`Except String` carrying the exception's message.  Filesystem reads are
modelled by supplying, for each path, either the parsed JSON document
(`Except.ok`) or a read/parse failure (`Except.error ()`).
-/

/-- JSON value (Python's parsed-JSON universe: None, bool, numbers, str,
list, dict).  JSON numbers are modelled by `Int`; none of the verified
properties depends on numeric semantics. -/
inductive JVal : Type where
  | jnull : JVal
  | jbool : Bool → JVal
  | jnum : Int → JVal
  | jstr : String → JVal
  | jarr : List JVal → JVal
  | jobj : List (String × JVal) → JVal
deriving Repr

/-- A Python dict with string keys, as produced by `json.load`. -/
abbrev JObj := List (String × JVal)

namespace JVal

/-- Embeds `v is None` test used by `_build_manifest`'s filter. -/
def isNull : JVal → Bool
  | .jnull => true
  | _ => false

end JVal

mutual

/-- Structural equality of JSON values (Python `==` on parsed JSON). -/
def jvalBEq : JVal → JVal → Bool
  | .jnull, .jnull => true
  | .jbool a, .jbool b => a == b
  | .jnum a, .jnum b => a == b
  | .jstr a, .jstr b => a == b
  | .jarr xs, .jarr ys => jlistBEq xs ys
  | .jobj xs, .jobj ys => jfieldsBEq xs ys
  | _, _ => false

/-- Elementwise equality of JSON arrays. -/
def jlistBEq : List JVal → List JVal → Bool
  | [], [] => true
  | x :: xs, y :: ys => jvalBEq x y && jlistBEq xs ys
  | _, _ => false

/-- Entrywise equality of JSON objects (as ordered association lists). -/
def jfieldsBEq : List (String × JVal) → List (String × JVal) → Bool
  | [], [] => true
  | (k1, v1) :: xs, (k2, v2) :: ys => k1 == k2 && jvalBEq v1 v2 && jfieldsBEq xs ys
  | _, _ => false

end

/-- Embeds `d.get(k)`: first binding wins (Python dict keys are unique, so
first = only). -/
def jget (d : JObj) (k : String) : Option JVal :=
  (d.find? (fun kv => kv.1 == k)).map (·.2)

/-- Python `d.get(k, default)`. -/
def jgetD (d : JObj) (k : String) (default : JVal) : JVal :=
  (jget d k).getD default

/-- Python `d[k]`: raises `KeyError` when the key is absent. -/
def jgetE (d : JObj) (k : String) : Except String JVal :=
  match jget d k with
  | some v => .ok v
  | none => .error ("KeyError: " ++ k)

/-- Python `d[k] = v`: replace an existing binding in place, else append. -/
def jset (d : JObj) (k : String) (v : JVal) : JObj :=
  if (d.find? (fun kv => kv.1 == k)).isSome then
    d.map (fun kv => if kv.1 == k then (k, v) else kv)
  else
    d ++ [(k, v)]

/-- Remove a top-level key (models DeepDiff's
`exclude_paths=["root['lastModifiedDateTime']"]` exclusion of the root-level
field). -/
def jerase (d : JObj) (k : String) : JObj :=
  d.filter (fun kv => kv.1 ≠ k)

/-! ## Diff generator (`src/utils/diff_generator.py`) -/

/-- Outcome of opening and `json.load`-ing one manifest file: the parsed
top-level object, or a read/parse failure.  A file whose JSON is not an
object is folded into the failure case: in the source the subsequent
`data.get(...)` attribute access raises inside the same `try` block, which
is exactly the failure path. -/
abbrev FileRead := Except Unit JObj

/-- A snapshot of the export tree: relative path ↦ read outcome.  Mirrors
the `{f.relative_to(base): f for f in files}` dicts of
`generate_change_log`; Python iterates the derived sets in unspecified
order, the model fixes list order (every verified property is
order-insensitive). -/
abbrev Snapshot := List (String × FileRead)

/-- Membership of a path in a snapshot's key set. -/
def hasPath (s : Snapshot) (p : String) : Bool :=
  s.any (fun pf => pf.1 == p)

/-- Lookup of a path's read outcome (dict access `set[path]`). -/
def lookupPath (s : Snapshot) (p : String) : Option FileRead :=
  (s.find? (fun pf => pf.1 == p)).map (·.2)

/-- Embeds `_get_object_type`: `file_path.parent.name`, the containing directory's
name (empty for a bare filename, like `Path.parent.name` on a
single-component relative path). -/
def getObjectType (path : String) : String :=
  ((path.splitOn "/").dropLast).getLastD ""

/-- An `added`/`removed` change entry as built by `_create_change_entry`. -/
structure ChangeEntry where
  objectType : String
  displayName : JVal
  objectId : JVal
  changeType : String
deriving Repr

/-- A `modified` change entry as built by `_compare_files`.  The formatted
field-level diff payload (`changes`, from `_format_deepdiff`) is not
modelled: no verified property refers to its content, only to whether the
entry exists. -/
structure ModifiedEntry where
  objectType : String
  displayName : JVal
  objectId : JVal
deriving Repr

/-- Embeds `_create_change_entry`: on a successful read, fields from the document
(`data.get(..., 'Unknown')`); on any exception, the fallback entry with
`displayName` "Error reading file". -/
def createChangeEntry (path : String) (read : FileRead) (changeType : String) : ChangeEntry :=
  match read with
  | .ok data =>
      { objectType := getObjectType path
        displayName := jgetD data "displayName" (.jstr "Unknown")
        objectId := jgetD data "id" (.jstr "Unknown")
        changeType := changeType }
  | .error _ =>
      { objectType := getObjectType path
        displayName := .jstr "Error reading file"
        objectId := .jstr "Unknown"
        changeType := changeType }

/-- Modelled behaviour of the external DeepDiff library call
`DeepDiff(old, new, ignore_order=True, exclude_paths=["root['lastModifiedDateTime']"])`
restricted to its emptiness: the diff is empty when the two documents agree
structurally after the root-level `lastModifiedDateTime` field is excluded.
(`ignore_order=True` only makes more document pairs diff-empty; every
verified property uses only the direction "structurally equal after
exclusion ⇒ empty", on which the model and the library agree.) -/
def deepDiffIsEmpty (oldData newData : JObj) : Bool :=
  jfieldsBEq (jerase oldData "lastModifiedDateTime") (jerase newData "lastModifiedDateTime")

/-- Embeds `_compare_files`: both reads must succeed; an empty (excluded-field)
diff yields no entry; any exception (modelled: either read failing) is
caught and yields `None`. -/
def compareFiles (path : String) (oldRead newRead : FileRead) : Option ModifiedEntry :=
  match oldRead, newRead with
  | .ok oldData, .ok newData =>
      if deepDiffIsEmpty oldData newData then none
      else some
        { objectType := getObjectType path
          displayName := jgetD newData "displayName" (.jstr "Unknown")
          objectId := jgetD newData "id" (.jstr "Unknown") }
  | _, _ => none

/-- The changelog object assembled by `generate_change_log` (its `changes`
dict). -/
structure ChangeLog where
  timestamp : String
  commit : Option String
  added : List ChangeEntry
  removed : List ChangeEntry
  modified : List ModifiedEntry
deriving Repr

/-- Lines 33–51 of `generate_change_log`: the three set-difference passes
over the current and previous snapshots. -/
def diffSnapshots (now : String) (commit : Option String)
    (current previous : Snapshot) : ChangeLog :=
  { timestamp := now
    commit := commit
    added := (current.filter (fun pf => !(hasPath previous pf.1))).map
      (fun pf => createChangeEntry pf.1 pf.2 "added")
    removed := (previous.filter (fun pf => !(hasPath current pf.1))).map
      (fun pf => createChangeEntry pf.1 pf.2 "removed")
    modified := current.filterMap (fun pf =>
      match lookupPath previous pf.1 with
      | some oldRead => compareFiles pf.1 oldRead pf.2
      | none => none) }

/-- Embeds `_get_previous_files`: the source always returns the empty list ("For
now, return empty list if this is the first run"). -/
def get_previous_files (commit : Option String) : Snapshot :=
  []

/-- Embeds `generate_change_log`: scan the export tree (the `current` snapshot is
the scan's result), fetch the previous snapshot via `_get_previous_files`,
and diff. -/
def generate_change_log (now : String) (commit : Option String)
    (current : Snapshot) : ChangeLog :=
  diffSnapshots now commit current (get_previous_files commit)

/-- Embeds `_save_change_log` dumps the very same `changes` object to the
timestamped file and to `change_logs/latest.json`, so the content of
`latest.json` after a run is the changelog the run produced. -/
def latest_json (now : String) (commit : Option String)
    (current : Snapshot) : ChangeLog :=
  generate_change_log now commit current

/-! ## Shared Python-semantics helpers for the exporters -/

/-- Embeds `str(v)` as used inside f-strings.  Exact for the scalar values the
verified properties touch; compound values get a placeholder rendering
(no claim inspects an f-string of a compound value). -/
def pyStr : JVal → String
  | .jstr s => s
  | .jnull => "None"
  | .jbool true => "True"
  | .jbool false => "False"
  | .jnum n => toString n
  | .jarr _ => "<list>"
  | .jobj _ => "<dict>"

/-- Python truthiness of a parsed-JSON value (`if x:`). -/
def JVal.truthy : JVal → Bool
  | .jnull => false
  | .jbool b => b
  | .jnum n => n != 0
  | .jstr s => !s.isEmpty
  | .jarr xs => !xs.isEmpty
  | .jobj fs => !fs.isEmpty

/-- Embeds `v[k]` on an arbitrary parsed value: `KeyError` on a dict without the
key, `TypeError` on a non-dict. -/
def JVal.getE (v : JVal) (k : String) : Except String JVal :=
  match v with
  | .jobj d => jgetE d k
  | _ => .error "TypeError: value is not subscriptable"

/-- An HTTP response as the exporters observe it: status code and parsed
JSON body. -/
structure HttpResponse where
  status : Nat
  body : JVal

/-- Embeds `requests.Response.raise_for_status`: raises `HTTPError` for any 4xx or
5xx status. -/
def raise_for_status (r : HttpResponse) : Except String Unit :=
  if 400 ≤ r.status then .error ("HTTPError: " ++ toString r.status) else .ok ()

/-- Embeds `response.json().get('value', [])` followed by iterating the result:
a non-dict body raises `AttributeError`, a non-list `value` fails at the
loop; both are folded into the error case. -/
def responseValueList (r : HttpResponse) : Except String (List JVal) :=
  match r.body with
  | .jobj d =>
      match jgetD d "value" (.jarr []) with
      | .jarr xs => .ok xs
      | _ => .error "TypeError: 'value' is not iterable"
  | _ => .error "AttributeError: .json() result is not a dict"

/-- One iteration of the `export_all` loops: the per-item `try`/`except`.
A success appends the item's record and its written filename; a caught
exception leaves the accumulators unchanged (the item is logged and
skipped). -/
def collectStep {A B C : Type} (f : A → Except String (B × C)) :
    (List B × List C) → A → (List B × List C) := fun acc p =>
  match f p with
  | .ok r => (acc.1 ++ [r.1], acc.2 ++ [r.2])
  | .error _ => acc

/-! ## Token provider (`src/utils/auth.py`) -/

/-- Embeds `sorted(scopes)`: insertion sort on strings. -/
def insertStr (x : String) : List String → List String
  | [] => [x]
  | y :: ys => if x ≤ y then x :: y :: ys else y :: insertStr x ys

/-- Embeds `sorted` on a list of strings. -/
def sortStrs : List String → List String
  | [] => []
  | x :: xs => insertStr x (sortStrs xs)

/-- The in-process token cache of `GraphAuthenticator` (`self._token_cache`):
cache key ↦ the stored msal result dict.  Dict update is modelled by
prepending (lookup takes the first binding). -/
structure AuthState where
  tokenCache : List (String × JObj)

/-- The acquire-new-token half of `get_token` (lines 36–45): store and
return the token when the identity provider's result carries one, else
raise with the provider's error description in the message. -/
def acquireToken (st : AuthState) (cacheKey : String) (result : JObj) :
    Except String (JVal × AuthState) :=
  match jget result "access_token" with
  | some t => .ok (t, ⟨(cacheKey, result) :: st.tokenCache⟩)
  | none => .error ("Failed to acquire token: " ++
      pyStr (jgetD result "error_description" (.jstr "Unknown error")))

/-- Embeds `GraphAuthenticator.get_token`: default scope, cache keyed by the
sorted scopes joined with `|`, unconditional cache hit, else acquire.
`result` is the dict the identity provider returns for this call
(`self._app.acquire_token_for_client(scopes=scopes)`). -/
def get_token (st : AuthState) (scopesOpt : Option (List String)) (result : JObj) :
    Except String (JVal × AuthState) :=
  let scopes := scopesOpt.getD ["https://graph.microsoft.com/.default"]
  let cacheKey := String.intercalate "|" (sortStrs scopes)
  match (st.tokenCache.find? (fun kv => kv.1 == cacheKey)).map (·.2) with
  | some tokenData =>
      if !tokenData.isEmpty then
        match jget tokenData "access_token" with
        | some t => .ok (t, st)
        | none => .error "KeyError: access_token"
      else acquireToken st cacheKey result
  | none => acquireToken st cacheKey result

/-! ## Compliance-policy exporter
(`src/modules/python/export_compliance_policies.py`)

The HTTP world the exporter runs against is a `CPEnv`: the identity
provider's token result, and the response each endpoint would give.  The
bearer token only flows into request headers, which do not influence the
modelled responses.  Every `get_token` call after the first one hits the
in-process cache and returns the same token, so the token fetch is
performed once, up front, exactly as a run of the source observes it. -/

structure CPEnv where
  /-- msal's result dict for `acquire_token_for_client`. -/
  tokenResult : JObj
  /-- Response of `GET .../deviceManagement/deviceCompliancePolicies`. -/
  listResp : HttpResponse
  /-- Response of `GET .../deviceCompliancePolicies/{id}`, keyed by id. -/
  detailsResp : JVal → HttpResponse
  /-- Response of `GET .../deviceCompliancePolicies/{id}/assignments`. -/
  assignResp : JVal → HttpResponse
  /-- Embeds `config.export_config['include_assignments']`. -/
  include_assignments : Bool
  /-- Whether writing the given manifest filename raises `IOError`. -/
  writeFails : String → Bool

/-- Embeds `_get_all_policies`: token, GET, `raise_for_status`,
`.json().get('value', [])`. -/
def cp_get_all_policies (env : CPEnv) : Except String (List JVal) := do
  let _ ← get_token ⟨[]⟩ none env.tokenResult
  let _ ← raise_for_status env.listResp
  responseValueList env.listResp

/-- Embeds `_get_policy_details`: GET by id, `raise_for_status`, full body. -/
def cp_get_policy_details (env : CPEnv) (pid : JVal) : Except String JVal := do
  let _ ← raise_for_status (env.detailsResp pid)
  .ok (env.detailsResp pid).body

/-- Embeds `_get_policy_assignments`: a 404 yields the empty list; any other
non-success raises; otherwise `.json().get('value', [])` is returned
as-is. -/
def cp_get_policy_assignments (env : CPEnv) (pid : JVal) : Except String JVal :=
  if (env.assignResp pid).status == 404 then .ok (.jarr [])
  else do
    let _ ← raise_for_status (env.assignResp pid)
    match (env.assignResp pid).body with
    | .jobj d => .ok (jgetD d "value" (.jarr []))
    | _ => .error "AttributeError: .json() result is not a dict"

/-- The filename `_save_policy` builds:
`f"{policy['displayName'].replace('/', '_')}_{policy['id']}.json"`. -/
def cp_manifest_filename (displayName : String) (pid : String) : String :=
  (displayName.replace "/" "_") ++ "_" ++ pid ++ ".json"

/-- Embeds `_save_policy`: build the filename (a non-string `displayName` raises
at `.replace`), then write (failure raises `IOError`).  Returns the
filename written. -/
def cp_save_policy (env : CPEnv) (policy : JVal) : Except String String := do
  let dn ← policy.getE "displayName"
  let pid ← policy.getE "id"
  match dn with
  | .jstr s =>
      let filename := cp_manifest_filename s (pyStr pid)
      if env.writeFails filename then .error "IOError" else .ok filename
  | _ => .error "AttributeError: .replace on a non-string"

/-- The body of `export_all`'s per-policy `try` block up to the point the
policy is appended to `exported`: details fetch, optional assignments
(attached with `full_policy['assignments'] = ...`), save.  Any raise here
is caught by the loop and the item skipped.  (The log line after the
append can also raise, but only after the item already counts as
exported, so it is not part of this function.) -/
def cp_export_one (env : CPEnv) (policy : JVal) : Except String (JVal × String) := do
  let pid ← policy.getE "id"
  let full ← cp_get_policy_details env pid
  let full2 ←
    if env.include_assignments then do
      let a ← cp_get_policy_assignments env pid
      match full with
      | .jobj d => .ok (JVal.jobj (jset d "assignments" a))
      | _ => .error "TypeError: item assignment on a non-dict"
    else .ok full
  let fname ← cp_save_policy env full2
  .ok (full2, fname)

/-- Embeds `CompliancePolicyExporter.export_all`: list (failures propagate), then
the per-item loop with its `try`/`except` (failures skipped).  Returns the
`exported` list paired with the manifest filenames written. -/
def cp_export_all (env : CPEnv) : Except String (List JVal × List String) := do
  let policies ← cp_get_all_policies env
  .ok (policies.foldl (collectStep (cp_export_one env)) ([], []))

/-! ## Application exporter (`src/modules/python/export_applications.py`) -/

/-- The HTTP world of `ApplicationExporter`, analogous to `CPEnv`.
Transport exceptions during the group lookup are caught by the inner
`try` exactly like a non-200 status, so they are subsumed by statuses.
Icon decode/write failures are caught inside `_export_icon` and change
nothing observable (the manifest's `iconFile` reference is set by
`export_all` regardless of `_export_icon`'s outcome), so icon I/O carries
no environment field. -/
structure AppEnv where
  /-- msal's result dict for `acquire_token_for_client`. -/
  tokenResult : JObj
  /-- Response of the filtered `GET .../mobileApps` listing. -/
  listResp : HttpResponse
  /-- Response of `GET .../mobileApps/{id}`, keyed by id. -/
  detailsResp : JVal → HttpResponse
  /-- Response of `GET .../mobileApps/{id}/detectionRules`. -/
  detectionResp : JVal → HttpResponse
  /-- Response of `GET .../mobileApps/{id}/requirementRules`. -/
  requirementResp : JVal → HttpResponse
  /-- Response of `GET .../mobileApps/{id}/assignments`. -/
  assignResp : JVal → HttpResponse
  /-- Response of `GET .../groups/{group_id}`, keyed by group id. -/
  groupResp : JVal → HttpResponse
  /-- Embeds `config.export_config['include_assignments']`. -/
  include_assignments : Bool
  /-- Whether writing the given manifest filename raises `IOError`. -/
  writeFails : String → Bool

/-- Embeds `_get_all_win32_apps`: token, filtered GET, `raise_for_status`,
`.json().get('value', [])`. -/
def app_get_all_win32_apps (env : AppEnv) : Except String (List JVal) := do
  let _ ← get_token ⟨[]⟩ none env.tokenResult
  let _ ← raise_for_status env.listResp
  responseValueList env.listResp

/-- Merge one sub-resource response into `app_data` (`_get_app_details`
lines 84–93): only a 200 attaches `resp.json().get('value', [])` under the
given key; attaching onto a non-dict `app_data`, or reading `value` off a
non-dict body, raises. -/
def attachRules (base : JVal) (key : String) (r : HttpResponse) : Except String JVal :=
  if r.status == 200 then
    match base, r.body with
    | .jobj d, .jobj rb => .ok (JVal.jobj (jset d key (jgetD rb "value" (.jarr []))))
    | .jobj _, _ => .error "AttributeError: .json() result is not a dict"
    | _, _ => .error "TypeError: item assignment on a non-dict"
  else .ok base

/-- Embeds `_get_app_details`: primary GET is fatal on non-2xx; the detection and
requirement sub-resources are attached only when they answer 200 (any
other status means "no data", not an error). -/
def app_get_details (env : AppEnv) (aid : JVal) : Except String JVal := do
  let _ ← raise_for_status (env.detailsResp aid)
  let base := (env.detailsResp aid).body
  let withDet ← attachRules base "detectionRules" (env.detectionResp aid)
  attachRules withDet "requirementRules" (env.requirementResp aid)

/-- The per-assignment record of `_get_app_assignments` (lines 107–126):
mandatory `id`/`intent`/`target` (a `KeyError` propagates), defaulted
`source`, and the best-effort group-name resolution whose inner `try`
swallows lookup failures (non-200 or a non-dict group body) by simply
omitting `targetGroupName`.  `target['groupId']` is read outside that
`try`, so its `KeyError` propagates. -/
def app_build_assignment (env : AppEnv) (a : JVal) : Except String JVal :=
  match a with
  | .jobj d => do
      let aid ← jgetE d "id"
      let intent ← jgetE d "intent"
      let target ← jgetE d "target"
      let base : JObj :=
        [("id", aid), ("intent", intent),
         ("source", jgetD d "source" (.jstr "direct")), ("target", target)]
      match target with
      | .jobj td =>
          if jvalBEq (jgetD td "@odata.type" .jnull)
              (.jstr "#microsoft.graph.groupAssignmentTarget") then do
            let gid ← jgetE td "groupId"
            let gr := env.groupResp gid
            if gr.status == 200 then
              match gr.body with
              | .jobj gb =>
                  .ok (.jobj (jset base "targetGroupName" (jgetD gb "displayName" .jnull)))
              | _ => .ok (.jobj base)
            else .ok (.jobj base)
          else .ok (.jobj base)
      | _ => .error "AttributeError: .get on a non-dict target"
  | _ => .error "TypeError: assignment is not subscriptable"

/-- Embeds `_get_app_assignments`: GET with `raise_for_status` (no 404 tolerance
here, unlike the compliance variant), then build each record. -/
def app_get_assignments (env : AppEnv) (aid : JVal) : Except String (List JVal) := do
  let _ ← raise_for_status (env.assignResp aid)
  let vals ← responseValueList (env.assignResp aid)
  vals.mapM (app_build_assignment env)

/-- Embeds `_sanitize_filename`: `re.sub(r'[^\w\s-]', '_', name)`.  `\w` is
modelled as alphanumeric-or-underscore; the verified properties do not
depend on the exact character class. -/
def sanitize_filename (name : String) : String :=
  name.map (fun c =>
    if c.isAlphanum || c == '_' || c.isWhitespace || c == '-' then c else '_')

/-- The filename `_save_manifest` builds:
`f"{self._sanitize_filename(app_name)}_{app_id}.json"`. -/
def app_manifest_filename (appName : String) (appId : String) : String :=
  sanitize_filename appName ++ "_" ++ appId ++ ".json"

/-- Embeds `_build_manifest`: the fixed allow-list copy (mandatory `id` and
`displayName` via indexing; everything else via `.get` with the source's
defaults) followed by `{k: v for k, v in manifest.items() if v is not
None}`. -/
def build_manifest (app : JVal) : Except String JObj :=
  match app with
  | .jobj d => do
      let idv ← jgetE d "id"
      let dn ← jgetE d "displayName"
      let manifest : JObj :=
        [("id", idv),
         ("displayName", dn),
         ("description", jgetD d "description" (.jstr "")),
         ("publisher", jgetD d "publisher" (.jstr "")),
         ("version", jgetD d "displayVersion" (.jstr "")),
         ("createdDateTime", jgetD d "createdDateTime" .jnull),
         ("lastModifiedDateTime", jgetD d "lastModifiedDateTime" .jnull),
         ("fileName", jgetD d "fileName" .jnull),
         ("size", jgetD d "size" .jnull),
         ("installCommandLine", jgetD d "installCommandLine" .jnull),
         ("uninstallCommandLine", jgetD d "uninstallCommandLine" .jnull),
         ("setupFilePath", jgetD d "setupFilePath" .jnull),
         ("minimumFreeDiskSpaceInMB", jgetD d "minimumFreeDiskSpaceInMB" .jnull),
         ("minimumMemoryInMB", jgetD d "minimumMemoryInMB" .jnull),
         ("minimumNumberOfProcessors", jgetD d "minimumNumberOfProcessors" .jnull),
         ("minimumCpuSpeedInMHz", jgetD d "minimumCpuSpeedInMHz" .jnull),
         ("applicableArchitectures", jgetD d "applicableArchitectures" (.jarr [])),
         ("minimumSupportedOperatingSystem", jgetD d "minimumSupportedOperatingSystem" (.jobj [])),
         ("requiresReboot", jgetD d "requiresReboot" (.jbool false)),
         ("msiInformation", jgetD d "msiInformation" .jnull),
         ("returnCodes", jgetD d "returnCodes" (.jarr [])),
         ("rules", jgetD d "rules" (.jarr [])),
         ("detectionRules", jgetD d "detectionRules" (.jarr [])),
         ("requirementRules", jgetD d "requirementRules" (.jarr []))]
      .ok (manifest.filter (fun kv => !kv.2.isNull))
  | _ => .error "AttributeError: .get on a non-dict"

/-- Embeds `_save_manifest`: build the filename (sanitizing a non-string name
raises `TypeError` at `re.sub`) and write the manifest there; write
failure raises.  Returns the filename written. -/
def app_save_manifest (env : AppEnv) (manifest : JObj) (appName : JVal) (appId : JVal) :
    Except String String :=
  match appName with
  | .jstr s =>
      let filename := app_manifest_filename s (pyStr appId)
      if env.writeFails filename then .error "IOError" else .ok filename
  | _ => .error "TypeError: re.sub on a non-string"

/-- The note `export_all` appends to every application manifest. -/
def contentNote : String :=
  "Application content (.intunewin file) cannot be exported via Graph API. Original installer files must be maintained separately for re-import."

/-- The body of `export_all`'s per-app `try` block (lines 26–50): details,
manifest, optional assignments, icon reference when `largeIcon` is truthy
(the icon write itself is best-effort and changes nothing observable),
note, save, and the summary record appended to `exported`. -/
def app_export_one (env : AppEnv) (app : JVal) : Except String (JObj × String) :=
  match app with
  | .jobj d => do
      let aid ← jgetE d "id"
      let full ← app_get_details env aid
      let manifest ← build_manifest full
      let manifest1 ←
        if env.include_assignments then do
          let assigns ← app_get_assignments env aid
          .ok (jset manifest "assignments" (.jarr assigns))
        else .ok manifest
      let dn ← jgetE d "displayName"
      let manifest2 ←
        if (match full with | .jobj fd => jgetD fd "largeIcon" .jnull | _ => .jnull).truthy then
          match dn with
          | .jstr s =>
              .ok (jset manifest1 "iconFile" (.jstr (sanitize_filename s ++ "_icon.png")))
          | _ => .error "TypeError: re.sub on a non-string"
        else .ok manifest1
      let manifest3 := jset manifest2 "note" (.jstr contentNote)
      let fname ← app_save_manifest env manifest3 dn aid
      let version := (match full with | .jobj fd => jgetD fd "displayVersion" (.jstr "Unknown") | _ => .jstr "Unknown")
      .ok ([("id", aid), ("displayName", dn), ("version", version),
            ("status", JVal.jstr "Exported")], fname)
  | _ => .error "TypeError: app is not subscriptable"

/-- Embeds `ApplicationExporter.export_all`: list (failures propagate), then the
per-item loop with its `try`/`except` (failures skipped).  Returns the
`exported` summary list paired with the manifest filenames written. -/
def app_export_all (env : AppEnv) : Except String (List JObj × List String) := do
  let apps ← app_get_all_win32_apps env
  .ok (apps.foldl (collectStep (app_export_one env)) ([], []))

/-! ## CLI entry point (`src/export_runner.py`) -/

/-- The `--module` selector (named `CliModule` to avoid clashing with
Mathlib's `Module`). -/
inductive CliModule : Type where
  | compliance_policies : CliModule
  | applications : CliModule
  | all : CliModule

/-- Final observable outcome of a run of `main`: the process exit code and
the manifest files written under the export tree. -/
structure RunResult where
  exitCode : Nat
  writtenFiles : List String
deriving Repr

/-- Embeds `run_applications_export`: the placeholder branch.  It logs a warning
and returns the empty list; it never constructs an `ApplicationExporter`,
performs no request and writes no file (the `AppEnv` parameter is there
only so independence from it can be stated). -/
def run_applications_export (appenv : AppEnv) : List JObj :=
  []

/-- Embeds `run_compliance_policies_export` under `main`'s `try`: a raise out of
`export_all` is caught and turns into exit code 1.  `export_all` can only
raise before its per-item loop (token or listing), hence before any
manifest write, so the failure path has written nothing. -/
def run_compliance_export (env : CPEnv) : RunResult :=
  match cp_export_all env with
  | .ok out => { exitCode := 0, writtenFiles := out.2 }
  | .error _ => { exitCode := 1, writtenFiles := [] }

/-- Embeds `main`: config validation (`Config()` raises `ValueError` listing the
missing identity variables, caught by `main`'s handler → exit 1), then the
selected module(s); any uncaught exception gives exit code 1, otherwise
exit code 0. -/
def export_runner_main (m : CliModule) (missingVars : List String)
    (cpenv : CPEnv) (appenv : AppEnv) : RunResult :=
  if !missingVars.isEmpty then { exitCode := 1, writtenFiles := [] }
  else
    match m with
    | .compliance_policies => run_compliance_export cpenv
    | .applications =>
        let _ := run_applications_export appenv
        { exitCode := 0, writtenFiles := [] }
    | .all =>
        match cp_export_all cpenv with
        | .ok out =>
            let _ := run_applications_export appenv
            { exitCode := 0, writtenFiles := out.2 }
        | .error _ => { exitCode := 1, writtenFiles := [] }

/-! ## Concrete sample inputs (used to instantiate the theorems) -/

/-- A well-formed exported manifest document. -/
def baselineDoc : JObj :=
  [("id", .jstr "abc-1"), ("displayName", .jstr "Baseline")]

/-- A one-file export tree. -/
def baselineSnap : Snapshot :=
  [("CompliancePolicies/Baseline_abc-1.json", .ok baselineDoc)]

/-- Current snapshot with one file only it has. -/
def sampleCur : Snapshot :=
  [("CompliancePolicies/A_1.json", .ok [("id", .jstr "1"), ("displayName", .jstr "A")])]

/-- Previous snapshot with one file only it has. -/
def samplePrev : Snapshot :=
  [("CompliancePolicies/B_2.json", .ok [("id", .jstr "2"), ("displayName", .jstr "B")])]

/-- Document before a re-export: only `lastModifiedDateTime` will change. -/
def lmdOldDoc : JObj :=
  [("id", .jstr "abc-1"), ("displayName", .jstr "Baseline"),
   ("lastModifiedDateTime", .jstr "2024-01-01T00:00:00Z")]

/-- The same document after a re-export that only bumped
`lastModifiedDateTime`. -/
def lmdNewDoc : JObj :=
  [("id", .jstr "abc-1"), ("displayName", .jstr "Baseline"),
   ("lastModifiedDateTime", .jstr "2024-02-02T00:00:00Z")]

/-- A successful msal token result. -/
def sampleTokenOk : JObj :=
  [("access_token", .jstr "tok-12345"), ("token_type", .jstr "Bearer")]

/-- The rejected-credential msal result from the spec's scenario. -/
def sampleTokenBad : JObj :=
  [("error", .jstr "invalid_client"), ("error_description", .jstr "bad creds")]

/-- An empty successful response. -/
def resp200 : HttpResponse := ⟨200, .jobj []⟩

/-- A raw application record carrying only the mandatory fields. -/
def sampleApp : JVal :=
  .jobj [("id", .jstr "app-1"), ("displayName", .jstr "App")]

/-- A compliance-policy details body. -/
def samplePolicyBody : JObj :=
  [("id", .jstr "abc-1"), ("displayName", .jstr "Baseline")]

/-- A compliance-exporter world where every request succeeds and the
assignments endpoint answers 404 for policy `abc-1` and 500 otherwise. -/
def cpEnv404 : CPEnv :=
  { tokenResult := sampleTokenOk
    listResp := ⟨200, .jobj [("value", .jarr [.jobj samplePolicyBody])]⟩
    detailsResp := fun _ => ⟨200, .jobj samplePolicyBody⟩
    assignResp := fun pid =>
      if jvalBEq pid (.jstr "abc-1") then ⟨404, .jobj []⟩ else ⟨500, .jobj []⟩
    include_assignments := true
    writeFails := fun _ => false }

/-- A compliance-exporter world with a valid token and an empty listing. -/
def cpEnvOk : CPEnv :=
  { tokenResult := sampleTokenOk
    listResp := ⟨200, .jobj []⟩
    detailsResp := fun _ => resp200
    assignResp := fun _ => resp200
    include_assignments := true
    writeFails := fun _ => false }

/-- A compliance-exporter world whose identity provider rejects the
credential. -/
def cpEnvBadTok : CPEnv :=
  { cpEnvOk with tokenResult := sampleTokenBad }

/-- An application-exporter world with a valid token and an empty
listing. -/
def appEnvOk : AppEnv :=
  { tokenResult := sampleTokenOk
    listResp := ⟨200, .jobj []⟩
    detailsResp := fun _ => resp200
    detectionResp := fun _ => resp200
    requirementResp := fun _ => resp200
    assignResp := fun _ => resp200
    groupResp := fun _ => resp200
    include_assignments := true
    writeFails := fun _ => false }

/-- A second, observably different application-exporter world (used to
state independence from the application environment). -/
def appEnvAlt : AppEnv :=
  { appEnvOk with
    listResp := ⟨500, .jnull⟩
    tokenResult := sampleTokenBad
    writeFails := fun _ => true }

/-- The manifest keys of `_build_manifest` that copy the same-named raw
field (every allow-list key except `version`, which copies
`displayVersion`). -/
def sameNamedManifestKeys : List String :=
  ["id", "displayName", "description", "publisher", "createdDateTime",
   "lastModifiedDateTime", "fileName", "size", "installCommandLine",
   "uninstallCommandLine", "setupFilePath", "minimumFreeDiskSpaceInMB",
   "minimumMemoryInMB", "minimumNumberOfProcessors", "minimumCpuSpeedInMHz",
   "applicableArchitectures", "minimumSupportedOperatingSystem",
   "requiresReboot", "msiInformation", "returnCodes", "rules",
   "detectionRules", "requirementRules"]

/-- The manifest keys whose `.get` default in `_build_manifest` is
`None`. -/
def noneDefaultManifestKeys : List String :=
  ["createdDateTime", "lastModifiedDateTime", "fileName", "size",
   "installCommandLine", "uninstallCommandLine", "setupFilePath",
   "minimumFreeDiskSpaceInMB", "minimumMemoryInMB",
   "minimumNumberOfProcessors", "minimumCpuSpeedInMHz", "msiInformation"]

/-! ## Helper lemmas -/

mutual

theorem jvalBEq_refl : ∀ v, jvalBEq v v = true
  | .jnull => rfl
  | .jbool a => by simp [jvalBEq]
  | .jnum a => by simp [jvalBEq]
  | .jstr a => by simp [jvalBEq]
  | .jarr xs => by simp [jvalBEq, jlistBEq_refl xs]
  | .jobj xs => by simp [jvalBEq, jfieldsBEq_refl xs]

theorem jlistBEq_refl : ∀ xs, jlistBEq xs xs = true
  | [] => rfl
  | x :: xs => by simp [jlistBEq, jvalBEq_refl x, jlistBEq_refl xs]

theorem jfieldsBEq_refl : ∀ xs, jfieldsBEq xs xs = true
  | [] => rfl
  | (k, v) :: xs => by simp [jfieldsBEq, jvalBEq_refl v, jfieldsBEq_refl xs]

end

theorem ne_jnull_of_isNull_false : ∀ {v : JVal}, v.isNull = false → v ≠ JVal.jnull := by
  intro v h
  cases v <;> simp_all [JVal.isNull]

theorem jget_eq_none_iff (d : JObj) (k : String) :
    jget d k = none ↔ ∀ kv ∈ d, kv.1 ≠ k := by
  simp [jget, Option.map_eq_none', List.find?_eq_none]

theorem jget_filter_cons_ne (kv : String × JVal) (L : JObj) (k : String) (h : kv.1 ≠ k) :
    jget ((kv :: L).filter (fun kv => !kv.2.isNull)) k
      = jget (L.filter (fun kv => !kv.2.isNull)) k := by
  cases hn : kv.2.isNull with
  | true => simp [List.filter_cons, hn]
  | false =>
      simp only [List.filter_cons, hn, Bool.not_false, if_pos, jget]
      rw [List.find?_cons_of_neg]
      simp [h]

theorem jget_filter_cons_null (kv : String × JVal) (L : JObj) (k : String)
    (h : kv.2.isNull = true) :
    jget ((kv :: L).filter (fun kv => !kv.2.isNull)) k
      = jget (L.filter (fun kv => !kv.2.isNull)) k := by
  simp [List.filter_cons, h]

theorem jget_filter_cons_hit (kv : String × JVal) (L : JObj) (k : String)
    (hk : kv.1 = k) (hn : kv.2.isNull = false) :
    jget ((kv :: L).filter (fun kv => !kv.2.isNull)) k = some kv.2 := by
  simp only [List.filter_cons, hn, Bool.not_false, if_pos, jget]
  rw [List.find?_cons_of_pos _ (by simp [hk])]
  rfl

theorem foldl_collect {α β γ : Type} (f : α → Except String (β × γ))
    (ps : List α) (acc : List β × List γ) :
    ps.foldl (collectStep f) acc
      = (acc.1 ++ ps.filterMap (fun p => (f p).toOption.map Prod.fst),
         acc.2 ++ ps.filterMap (fun p => (f p).toOption.map Prod.snd)) := by
  induction ps generalizing acc with
  | nil => simp
  | cons p ps ih =>
      cases hf : f p with
      | ok r => simp [collectStep, hf, ih, List.filterMap_cons, Except.toOption]
      | error e => simp [collectStep, hf, ih, List.filterMap_cons, Except.toOption]

theorem diffSnapshots_prev_nil (now : String) (commit : Option String) (current : Snapshot) :
    diffSnapshots now commit current [] =
      { timestamp := now, commit := commit,
        added := current.map (fun pf => createChangeEntry pf.1 pf.2 "added"),
        removed := [], modified := [] } := by
  unfold diffSnapshots
  congr 1
  · simp [hasPath]
  · simp [lookupPath, List.filterMap_eq_nil_iff]

/-! ## Claim theorems -/

/-- Claim C1, counterexample: with the one-file export tree `baselineSnap`
held fixed, two consecutive runs of `generate_change_log` both produce a
`latest.json` whose `added` is NOT empty (the stubbed
`_get_previous_files` always returns the empty previous snapshot, so every
current file is reported as added), refuting the claim that `added`,
`removed` and `modified` are all empty on both runs. -/
theorem c1_counterexample :
    (latest_json "2024-01-01T00:00:00Z" none baselineSnap).added ≠ [] ∧
    (latest_json "2024-01-02T00:00:00Z" none baselineSnap).added ≠ [] := by
  constructor <;>
    · intro h
      exact absurd (congrArg List.length h) (by decide)

/-- Claim C1 as amended: running changelog generation twice in a row with
the (non-empty) export tree unchanged produces on both runs a
`latest.json` whose `removed` and `modified` are empty arrays while
`added` lists every current manifest file (one entry per file), the runs
agreeing with each other — because the previous-snapshot provider
`_get_previous_files` always returns the empty set. -/
theorem c1_amended_rerun_changelog (now1 now2 : String) (commit : Option String)
    (current : Snapshot) (hne : current ≠ []) :
    (latest_json now1 commit current).removed = [] ∧
    (latest_json now1 commit current).modified = [] ∧
    (latest_json now1 commit current).added.length = current.length ∧
    (latest_json now1 commit current).added ≠ [] ∧
    (latest_json now2 commit current).added = (latest_json now1 commit current).added ∧
    (latest_json now2 commit current).removed = (latest_json now1 commit current).removed ∧
    (latest_json now2 commit current).modified = (latest_json now1 commit current).modified := by
  have e1 : latest_json now1 commit current =
      { timestamp := now1, commit := commit,
        added := current.map (fun pf => createChangeEntry pf.1 pf.2 "added"),
        removed := [], modified := [] } := diffSnapshots_prev_nil now1 commit current
  have e2 : latest_json now2 commit current =
      { timestamp := now2, commit := commit,
        added := current.map (fun pf => createChangeEntry pf.1 pf.2 "added"),
        removed := [], modified := [] } := diffSnapshots_prev_nil now2 commit current
  refine ⟨by rw [e1], by rw [e1], by rw [e1]; exact List.length_map _ _, ?_, ?_, ?_, ?_⟩
  · rw [e1]
    intro h
    exact hne (by simpa using h)
  · rw [e1, e2]
  · rw [e1, e2]
  · rw [e1, e2]

/-- Claim C1, witness: the amended statement instantiated at the concrete
one-file tree `baselineSnap` and two run timestamps. -/
theorem c1_amended_witness :
    (latest_json "t1" none baselineSnap).removed = [] ∧
    (latest_json "t1" none baselineSnap).modified = [] ∧
    (latest_json "t1" none baselineSnap).added.length = baselineSnap.length ∧
    (latest_json "t1" none baselineSnap).added ≠ [] ∧
    (latest_json "t2" none baselineSnap).added = (latest_json "t1" none baselineSnap).added ∧
    (latest_json "t2" none baselineSnap).removed = (latest_json "t1" none baselineSnap).removed ∧
    (latest_json "t2" none baselineSnap).modified = (latest_json "t1" none baselineSnap).modified :=
  c1_amended_rerun_changelog "t1" "t2" none baselineSnap (by
    intro h
    exact absurd (congrArg List.length h) (by decide))

/-- Claim C4: the change log partitions paths by set difference — the
number of `added` entries equals the number of current-only paths and each
readable current-only file contributes its entry with `objectId` equal to
the file's `id` field; symmetrically for `removed`; `added`/`removed`
entries arise only from such files; and every `modified` entry arises from
a path present in both snapshots. -/
theorem c4_changelog_set_partition (now : String) (commit : Option String)
    (current previous : Snapshot)
    (hcur : (current.map Prod.fst).Nodup) (hprev : (previous.map Prod.fst).Nodup) :
    ((diffSnapshots now commit current previous).added.length =
        current.countP (fun pf => !(hasPath previous pf.1))) ∧
    (∀ p doc v, (p, Except.ok doc) ∈ current → hasPath previous p = false →
        jget doc "id" = some v →
        createChangeEntry p (Except.ok doc) "added" ∈
            (diffSnapshots now commit current previous).added ∧
          (createChangeEntry p (Except.ok doc) "added").objectId = v) ∧
    (∀ e ∈ (diffSnapshots now commit current previous).added,
        ∃ pf ∈ current, hasPath previous pf.1 = false ∧
          e = createChangeEntry pf.1 pf.2 "added") ∧
    ((diffSnapshots now commit current previous).removed.length =
        previous.countP (fun pf => !(hasPath current pf.1))) ∧
    (∀ p doc v, (p, Except.ok doc) ∈ previous → hasPath current p = false →
        jget doc "id" = some v →
        createChangeEntry p (Except.ok doc) "removed" ∈
            (diffSnapshots now commit current previous).removed ∧
          (createChangeEntry p (Except.ok doc) "removed").objectId = v) ∧
    (∀ e ∈ (diffSnapshots now commit current previous).removed,
        ∃ pf ∈ previous, hasPath current pf.1 = false ∧
          e = createChangeEntry pf.1 pf.2 "removed") ∧
    (∀ e ∈ (diffSnapshots now commit current previous).modified,
        ∃ p oldRead newRead, (p, newRead) ∈ current ∧
          lookupPath previous p = some oldRead ∧
          compareFiles p oldRead newRead = some e) := by
  refine ⟨?_, ?_, ?_, ?_, ?_, ?_, ?_⟩
  · show (List.map _ _).length = _
    rw [List.length_map, ← List.countP_eq_length_filter]
  · intro p doc v hmem hnot hid
    constructor
    · exact List.mem_map_of_mem _
        (List.mem_filter.mpr ⟨hmem, by simp [hnot]⟩)
    · simp [createChangeEntry, jgetD, hid]
  · intro e he
    obtain ⟨pf, hpf, rfl⟩ := List.mem_map.mp he
    exact ⟨pf, (List.mem_filter.mp hpf).1, by
      have := (List.mem_filter.mp hpf).2
      simpa using this, rfl⟩
  · show (List.map _ _).length = _
    rw [List.length_map, ← List.countP_eq_length_filter]
  · intro p doc v hmem hnot hid
    constructor
    · exact List.mem_map_of_mem _
        (List.mem_filter.mpr ⟨hmem, by simp [hnot]⟩)
    · simp [createChangeEntry, jgetD, hid]
  · intro e he
    obtain ⟨pf, hpf, rfl⟩ := List.mem_map.mp he
    exact ⟨pf, (List.mem_filter.mp hpf).1, by
      have := (List.mem_filter.mp hpf).2
      simpa using this, rfl⟩
  · intro e he
    obtain ⟨pf, hpf, hf⟩ := List.mem_filterMap.mp he
    cases hl : lookupPath previous pf.1 with
    | none => rw [hl] at hf; exact absurd hf (by simp)
    | some oldRead =>
        rw [hl] at hf
        exact ⟨pf.1, oldRead, pf.2, by simpa using hpf, hl, hf⟩

/-- Claim C4, witness: the partition statement instantiated at one-file
current and previous snapshots with disjoint paths (projection: the added
side's counting equation). -/
theorem c4_changelog_set_partition_witness :
    (diffSnapshots "t" none sampleCur samplePrev).added.length =
      sampleCur.countP (fun pf => !(hasPath samplePrev pf.1)) :=
  (c4_changelog_set_partition "t" none sampleCur samplePrev
    (by simp [sampleCur]) (by simp [samplePrev])).1

/-- Claim C5: two manifest documents for the same path that agree on
everything except the top-level `lastModifiedDateTime` value produce an
empty (excluded-path) diff, `_compare_files` reports no difference, and
the change log for snapshots containing exactly that object has no
`modified` entry. -/
theorem c5_lmd_only_no_modified (now : String) (commit : Option String)
    (path : String) (oldDoc newDoc : JObj)
    (h : jerase oldDoc "lastModifiedDateTime" = jerase newDoc "lastModifiedDateTime") :
    deepDiffIsEmpty oldDoc newDoc = true ∧
    compareFiles path (.ok oldDoc) (.ok newDoc) = none ∧
    (diffSnapshots now commit [(path, .ok newDoc)] [(path, .ok oldDoc)]).modified = [] := by
  have hd : deepDiffIsEmpty oldDoc newDoc = true := by
    unfold deepDiffIsEmpty
    rw [h]
    exact jfieldsBEq_refl _
  have hc : compareFiles path (.ok oldDoc) (.ok newDoc) = none := by
    simp [compareFiles, hd]
  refine ⟨hd, hc, ?_⟩
  show List.filterMap _ _ = []
  simp [List.filterMap_cons, lookupPath, hc]

/-- Claim C5, witness: the concrete pair `lmdOldDoc`/`lmdNewDoc`, identical
except for the bumped `lastModifiedDateTime`. -/
theorem c5_lmd_only_no_modified_witness :
    deepDiffIsEmpty lmdOldDoc lmdNewDoc = true ∧
    compareFiles "CompliancePolicies/Baseline_abc-1.json"
      (.ok lmdOldDoc) (.ok lmdNewDoc) = none ∧
    (diffSnapshots "t" none
      [("CompliancePolicies/Baseline_abc-1.json", .ok lmdNewDoc)]
      [("CompliancePolicies/Baseline_abc-1.json", .ok lmdOldDoc)]).modified = [] :=
  c5_lmd_only_no_modified "t" none "CompliancePolicies/Baseline_abc-1.json"
    lmdOldDoc lmdNewDoc rfl

/-- Claim C9: when either side of a common path fails to read or parse,
`_compare_files` returns no result and the object is silently omitted from
`modified` — in contrast to the added/removed path, where
`_create_change_entry` still emits an entry with `displayName`
"Error reading file" and `objectId` "Unknown". -/
theorem c9_compare_failure_silently_omitted (now : String) (commit : Option String)
    (path : String) (r : FileRead) (t : String) :
    compareFiles path (.error ()) r = none ∧
    compareFiles path r (.error ()) = none ∧
    (diffSnapshots now commit [(path, .error ())] [(path, r)]).modified = [] ∧
    (diffSnapshots now commit [(path, r)] [(path, .error ())]).modified = [] ∧
    (createChangeEntry path (.error ()) t).displayName = .jstr "Error reading file" ∧
    (createChangeEntry path (.error ()) t).objectId = .jstr "Unknown" := by
  have h1 : compareFiles path (.error ()) r = none := by cases r <;> rfl
  have h2 : compareFiles path r (.error ()) = none := by cases r <;> rfl
  refine ⟨h1, h2, ?_, ?_, rfl, rfl⟩
  · show List.filterMap _ _ = []
    simp [List.filterMap_cons, lookupPath, h2]
  · show List.filterMap _ _ = []
    simp [List.filterMap_cons, lookupPath, h1]

/-- Claim C2: once the listing call succeeds, `export_all` (both variants)
never raises — every per-item failure is caught and skipped, the loop
continues with the remaining objects, and the returned list (paired here
with the written filenames) consists of exactly the successfully exported
items, in order. -/
theorem c2_export_all_best_effort (cenv : CPEnv) (aenv : AppEnv)
    (policies apps : List JVal)
    (hlc : cp_get_all_policies cenv = .ok policies)
    (hla : app_get_all_win32_apps aenv = .ok apps) :
    cp_export_all cenv = .ok
      (policies.filterMap (fun p => (cp_export_one cenv p).toOption.map Prod.fst),
       policies.filterMap (fun p => (cp_export_one cenv p).toOption.map Prod.snd)) ∧
    app_export_all aenv = .ok
      (apps.filterMap (fun a => (app_export_one aenv a).toOption.map Prod.fst),
       apps.filterMap (fun a => (app_export_one aenv a).toOption.map Prod.snd)) := by
  constructor
  · unfold cp_export_all
    rw [hlc]
    show Except.ok _ = _
    rw [foldl_collect (cp_export_one cenv) policies ([], [])]
    simp
  · unfold app_export_all
    rw [hla]
    show Except.ok _ = _
    rw [foldl_collect (app_export_one aenv) apps ([], [])]
    simp

/-- Claim C2, witness: the best-effort statement instantiated at concrete
worlds — a compliance world whose listing returns one policy, and an
application world with an empty listing. -/
theorem c2_export_all_best_effort_witness :
    cp_export_all cpEnv404 = .ok
      (([JVal.jobj samplePolicyBody] : List JVal).filterMap
        (fun p => (cp_export_one cpEnv404 p).toOption.map Prod.fst),
       ([JVal.jobj samplePolicyBody] : List JVal).filterMap
        (fun p => (cp_export_one cpEnv404 p).toOption.map Prod.snd)) ∧
    app_export_all appEnvOk = .ok ([], []) :=
  c2_export_all_best_effort cpEnv404 appEnvOk [.jobj samplePolicyBody] [] rfl rfl

theorem except_bind_ok {ε α β : Type} (a : α) (f : α → Except ε β) :
    ((Except.ok a : Except ε α) >>= f) = f a := rfl

theorem except_bind_error {ε α β : Type} (e : ε) (f : α → Except ε β) :
    ((Except.error e : Except ε α) >>= f) = .error e := rfl

theorem jget_map_replace_ne (d : JObj) (k k' : String) (v : JVal) (h : k ≠ k') :
    jget (d.map (fun kv => if kv.1 == k then (k, v) else kv)) k' = jget d k' := by
  induction d with
  | nil => rfl
  | cons kv rest ih =>
      simp only [List.map_cons]
      cases hkv : kv.1 == k with
      | true =>
          have hk1 : kv.1 = k := by simpa using hkv
          have h1 : ((k, v).1 == k') = false := by simp [h]
          have h2 : (kv.1 == k') = false := by simp [hk1, h]
          simp only [jget, hkv, if_pos, List.find?_cons, h1, h2] at ih ⊢
          exact ih
      | false =>
          have hif : (if false = true then (k, v) else kv) = kv := rfl
          simp only [jget] at ih ⊢
          rw [hif]
          cases hp : kv.1 == k' with
          | true => simp only [List.find?, hp]
          | false =>
              simp only [List.find?, hp]
              exact ih

theorem jget_jset_ne (d : JObj) (k k' : String) (v : JVal) (h : k ≠ k') :
    jget (jset d k v) k' = jget d k' := by
  unfold jset
  by_cases hf : (d.find? (fun kv => kv.1 == k)).isSome
  · simp only [hf, if_pos]
    exact jget_map_replace_ne d k k' v h
  · simp only [hf, if_neg, Bool.false_eq_true, not_false_eq_true]
    simp only [jget, List.find?_append]
    have hkk : (k == k') = false := by simp [h]
    have : List.find? (fun kv => kv.1 == k') [(k, v)] = none := by
      simp [List.find?, hkk]
    rw [this]
    cases hd : d.find? (fun kv => kv.1 == k') <;> simp [Option.or]

theorem jget_map_replace_self (d : JObj) (k : String) (v : JVal)
    (hf : (d.find? (fun kv => kv.1 == k)).isSome) :
    jget (d.map (fun kv => if kv.1 == k then (k, v) else kv)) k = some v := by
  induction d with
  | nil => simp at hf
  | cons kv rest ih =>
      cases hkv : kv.1 == k with
      | true =>
          have hkk : (k == k) = true := by simp
          simp [jget, List.find?, hkv, hkk]
      | false =>
          have hf' : (rest.find? (fun kv => kv.1 == k)).isSome := by
            have h0 := hf
            simp only [List.find?, hkv] at h0
            exact h0
          simp only [List.map_cons]
          rw [hkv]
          rw [show ((if false = true then (k, v) else kv) : String × JVal) = kv from rfl]
          simp only [jget, List.find?, hkv]
          exact ih hf'

theorem jget_jset_self (d : JObj) (k : String) (v : JVal) :
    jget (jset d k v) k = some v := by
  unfold jset
  by_cases hf : (d.find? (fun kv => kv.1 == k)).isSome
  · simp only [hf, if_pos]
    exact jget_map_replace_self d k v hf
  · simp only [hf, if_neg, Bool.false_eq_true, not_false_eq_true]
    have hnone : d.find? (fun kv => kv.1 == k) = none := by
      cases hd : d.find? (fun kv => kv.1 == k) with
      | none => rfl
      | some x => rw [hd] at hf; simp at hf
    have hkk : (k == k) = true := by simp
    simp [jget, List.find?_append, hnone, List.find?, hkk, Option.or]

/-- Claim C6: a 404 on a compliance policy's assignments request makes
`_get_policy_assignments` return the empty list (no error), the exported
manifest carries `assignments: []`, and the policy's export goes through
(is not skipped); any other non-success status on that request raises an
error for that item. -/
theorem c6_assignments_404_empty_not_skipped (env : CPEnv) (pid : JVal)
    (pd fd : JObj) (dns : String) (idv : JVal)
    (h404 : (env.assignResp pid).status = 404)
    (hinc : env.include_assignments = true)
    (hpid : jget pd "id" = some pid)
    (hdet : env.detailsResp pid = ⟨200, .jobj fd⟩)
    (hdn : jget fd "displayName" = some (.jstr dns))
    (hid : jget fd "id" = some idv)
    (hw : env.writeFails (cp_manifest_filename dns (pyStr idv)) = false) :
    cp_get_policy_assignments env pid = .ok (.jarr []) ∧
    cp_export_one env (.jobj pd) =
      .ok (.jobj (jset fd "assignments" (.jarr [])),
           cp_manifest_filename dns (pyStr idv)) ∧
    jget (jset fd "assignments" (.jarr [])) "assignments" = some (.jarr []) ∧
    (∀ q : JVal, 400 ≤ (env.assignResp q).status → (env.assignResp q).status ≠ 404 →
        ∃ msg, cp_get_policy_assignments env q = .error msg) := by
  have ha : cp_get_policy_assignments env pid = .ok (.jarr []) := by
    simp [cp_get_policy_assignments, h404]
  refine ⟨ha, ?_, jget_jset_self fd "assignments" (.jarr []), ?_⟩
  · have hdet' : cp_get_policy_details env pid = .ok (.jobj fd) := by
      unfold cp_get_policy_details
      rw [hdet]
      rfl
    have hsave : cp_save_policy env (.jobj (jset fd "assignments" (.jarr []))) =
        .ok (cp_manifest_filename dns (pyStr idv)) := by
      have h1 : jget (jset fd "assignments" (.jarr [])) "displayName" = some (.jstr dns) := by
        rw [jget_jset_ne _ _ _ _ (by decide)]
        exact hdn
      have h2 : jget (jset fd "assignments" (.jarr [])) "id" = some idv := by
        rw [jget_jset_ne _ _ _ _ (by decide)]
        exact hid
      simp [cp_save_policy, JVal.getE, jgetE, h1, h2, hw, except_bind_ok]
    simp [cp_export_one, JVal.getE, jgetE, hpid, hdet', hinc, ha, hsave,
      except_bind_ok]
  · intro q hge hneq
    refine ⟨"HTTPError: " ++ toString (env.assignResp q).status, ?_⟩
    have h40 : ((env.assignResp q).status == 404) = false := by
      simpa using hneq
    simp [cp_get_policy_assignments, h40, raise_for_status, hge,
      except_bind_error]

/-- Claim C6, witness: the concrete world `cpEnv404`, whose assignments
endpoint answers 404 for policy `abc-1` and 500 for everything else. -/
theorem c6_assignments_404_witness :
    cp_get_policy_assignments cpEnv404 (.jstr "abc-1") = .ok (.jarr []) ∧
    cp_export_one cpEnv404 (.jobj samplePolicyBody) =
      .ok (.jobj (jset samplePolicyBody "assignments" (.jarr [])),
           cp_manifest_filename "Baseline" (pyStr (.jstr "abc-1"))) ∧
    jget (jset samplePolicyBody "assignments" (.jarr [])) "assignments" =
      some (.jarr []) := by
  have h := c6_assignments_404_empty_not_skipped cpEnv404 (.jstr "abc-1")
    samplePolicyBody samplePolicyBody "Baseline" (.jstr "abc-1")
    rfl rfl rfl rfl rfl rfl rfl
  exact ⟨h.1, h.2.1, h.2.2.1⟩

theorem jget_filter_nil (q : String × JVal → Bool) (k : String) :
    jget (List.filter q []) k = none := rfl

/-- Claim C3, counterexample: for the raw record `sampleApp`, which has
`id` and `displayName` but no `description`, the built manifest does not
drop the absent allow-list field `description` — it emits it with the
non-null default `""` — refuting the claim that every allow-list field
whose source value is null or absent is dropped from the output. -/
theorem c3_counterexample :
    build_manifest sampleApp = .ok
      [("id", JVal.jstr "app-1"), ("displayName", JVal.jstr "App"),
       ("description", JVal.jstr ""), ("publisher", JVal.jstr ""),
       ("version", JVal.jstr ""), ("applicableArchitectures", JVal.jarr []),
       ("minimumSupportedOperatingSystem", JVal.jobj []),
       ("requiresReboot", JVal.jbool false), ("returnCodes", JVal.jarr []),
       ("rules", JVal.jarr []), ("detectionRules", JVal.jarr []),
       ("requirementRules", JVal.jarr [])] ∧
    jget
      [("id", JVal.jstr "app-1"), ("displayName", JVal.jstr "App"),
       ("description", JVal.jstr ""), ("publisher", JVal.jstr ""),
       ("version", JVal.jstr ""), ("applicableArchitectures", JVal.jarr []),
       ("minimumSupportedOperatingSystem", JVal.jobj []),
       ("requiresReboot", JVal.jbool false), ("returnCodes", JVal.jarr []),
       ("rules", JVal.jarr []), ("detectionRules", JVal.jarr []),
       ("requirementRules", JVal.jarr [])] "description" = some (.jstr "") :=
  ⟨rfl, rfl⟩

/-- Claim C3 as amended: the manifest never contains a null value — every
allow-list field whose source value is null is dropped, and the fields
whose `.get` default is `None` are also dropped when absent — but an
absent field with a non-null default (e.g. `description`, defaulting to
`""`) is emitted with that default rather than dropped. -/
theorem c3_amended_no_null_values (d : JObj) (m : JObj)
    (h : build_manifest (.jobj d) = .ok m) :
    (∀ kv ∈ m, kv.2 ≠ JVal.jnull) ∧
    (∀ k ∈ sameNamedManifestKeys, jget d k = some .jnull → jget m k = none) ∧
    (∀ k ∈ noneDefaultManifestKeys, jget d k = none → jget m k = none) ∧
    (jget d "description" = none → jget m "description" = some (.jstr "")) := by
  unfold build_manifest at h
  cases hid : jget d "id" with
  | none =>
      simp only [jgetE, hid, except_bind_error] at h
      exact (Except.noConfusion h)
  | some idv =>
  cases hdn : jget d "displayName" with
  | none =>
      simp only [jgetE, hid, hdn, except_bind_ok, except_bind_error] at h
      exact (Except.noConfusion h)
  | some dnv =>
  simp only [jgetE, hid, hdn, except_bind_ok] at h
  have hm := Except.ok.inj h
  subst hm
  refine ⟨?_, ?_, ?_, ?_⟩
  · intro kv hkv
    have hp := (List.mem_filter.mp hkv).2
    exact ne_jnull_of_isNull_false (by simpa using hp)
  · intro k hk hnull
    simp only [sameNamedManifestKeys, List.mem_cons, List.not_mem_nil, or_false] at hk
    rcases hk with rfl|rfl|rfl|rfl|rfl|rfl|rfl|rfl|rfl|rfl|rfl|rfl|rfl|rfl|rfl|rfl|rfl|rfl|rfl|rfl|rfl|rfl|rfl
    all_goals
      first
      | (have hv : idv = JVal.jnull := Option.some.inj (hid.symm.trans hnull)
         subst hv
         simp +decide only [jget_filter_cons_ne, jget_filter_cons_null,
           jget_filter_nil])
      | (have hv : dnv = JVal.jnull := Option.some.inj (hdn.symm.trans hnull)
         subst hv
         simp +decide only [jget_filter_cons_ne, jget_filter_cons_null,
           jget_filter_nil])
      | simp +decide only [jgetD, hnull, Option.getD_some, jget_filter_cons_ne,
          jget_filter_cons_null, jget_filter_nil]
  · intro k hk hnone
    simp only [noneDefaultManifestKeys, List.mem_cons, List.not_mem_nil, or_false] at hk
    rcases hk with rfl|rfl|rfl|rfl|rfl|rfl|rfl|rfl|rfl|rfl|rfl|rfl
    all_goals
      simp +decide only [jgetD, hnone, Option.getD_none, jget_filter_cons_ne,
        jget_filter_cons_null, jget_filter_nil]
  · intro hnone
    simp +decide only [jgetD, hnone, Option.getD_none, jget_filter_cons_ne,
      jget_filter_cons_hit]

/-- Claim C3, witness: the amended statement instantiated at `sampleApp`'s
fields (which carry a null `publisher` and no `createdDateTime`). -/
theorem c3_amended_witness :
    jget
      [("id", JVal.jstr "app-1"), ("displayName", JVal.jstr "App"),
       ("description", JVal.jstr ""), ("version", JVal.jstr ""),
       ("applicableArchitectures", JVal.jarr []),
       ("minimumSupportedOperatingSystem", JVal.jobj []),
       ("requiresReboot", JVal.jbool false), ("returnCodes", JVal.jarr []),
       ("rules", JVal.jarr []), ("detectionRules", JVal.jarr []),
       ("requirementRules", JVal.jarr [])] "publisher" = none ∧
    jget
      [("id", JVal.jstr "app-1"), ("displayName", JVal.jstr "App"),
       ("description", JVal.jstr ""), ("version", JVal.jstr ""),
       ("applicableArchitectures", JVal.jarr []),
       ("minimumSupportedOperatingSystem", JVal.jobj []),
       ("requiresReboot", JVal.jbool false), ("returnCodes", JVal.jarr []),
       ("rules", JVal.jarr []), ("detectionRules", JVal.jarr []),
       ("requirementRules", JVal.jarr [])] "createdDateTime" = none ∧
    jget
      [("id", JVal.jstr "app-1"), ("displayName", JVal.jstr "App"),
       ("description", JVal.jstr ""), ("version", JVal.jstr ""),
       ("applicableArchitectures", JVal.jarr []),
       ("minimumSupportedOperatingSystem", JVal.jobj []),
       ("requiresReboot", JVal.jbool false), ("returnCodes", JVal.jarr []),
       ("rules", JVal.jarr []), ("detectionRules", JVal.jarr []),
       ("requirementRules", JVal.jarr [])] "description" = some (.jstr "") := by
  have hc := c3_amended_no_null_values
    [("id", .jstr "app-1"), ("displayName", .jstr "App"), ("publisher", JVal.jnull)]
    [("id", JVal.jstr "app-1"), ("displayName", JVal.jstr "App"),
       ("description", JVal.jstr ""), ("version", JVal.jstr ""),
       ("applicableArchitectures", JVal.jarr []),
       ("minimumSupportedOperatingSystem", JVal.jobj []),
       ("requiresReboot", JVal.jbool false), ("returnCodes", JVal.jarr []),
       ("rules", JVal.jarr []), ("detectionRules", JVal.jarr []),
       ("requirementRules", JVal.jarr [])] rfl
  exact ⟨hc.2.1 "publisher" (by simp [sameNamedManifestKeys]) rfl,
    hc.2.2.1 "createdDateTime" (by simp [noneDefaultManifestKeys]) rfl,
    hc.2.2.2 rfl⟩

/-- Claim C7: when the identity provider's result carries no
`access_token`, `get_token` raises (the spec's `AuthenticationError`
category; the source raises a bare `Exception`) with a message containing
the provider's error description, and the whole export run — alone or via
`all` — aborts before any manifest file is written, with process exit
code 1. -/
theorem c7_auth_failure_aborts_run (cpenv : CPEnv) (appenv : AppEnv) (desc : String)
    (htok : jget cpenv.tokenResult "access_token" = none)
    (hdesc : jget cpenv.tokenResult "error_description" = some (.jstr desc)) :
    get_token ⟨[]⟩ none cpenv.tokenResult =
      .error ("Failed to acquire token: " ++ desc) ∧
    (∃ pre post, "Failed to acquire token: " ++ desc = pre ++ desc ++ post) ∧
    export_runner_main .compliance_policies [] cpenv appenv =
      { exitCode := 1, writtenFiles := [] } ∧
    export_runner_main .all [] cpenv appenv =
      { exitCode := 1, writtenFiles := [] } := by
  have hg : get_token ⟨[]⟩ none cpenv.tokenResult =
      .error ("Failed to acquire token: " ++ desc) := by
    unfold get_token acquireToken
    simp [List.find?, htok, jgetD, hdesc, pyStr]
  have hexp : cp_export_all cpenv = .error ("Failed to acquire token: " ++ desc) := by
    simp [cp_export_all, cp_get_all_policies, hg, except_bind_error]
  refine ⟨hg, ⟨"Failed to acquire token: ", "", by simp⟩, ?_, ?_⟩
  · simp [export_runner_main, run_compliance_export, hexp]
  · simp [export_runner_main, hexp]

/-- Claim C7, witness: the spec scenario `{"error": "invalid_client",
"error_description": "bad creds"}` instantiated in the concrete world
`cpEnvBadTok`. -/
theorem c7_auth_failure_witness :
    get_token ⟨[]⟩ none cpEnvBadTok.tokenResult =
      .error ("Failed to acquire token: " ++ "bad creds") ∧
    export_runner_main .compliance_policies [] cpEnvBadTok appEnvOk =
      { exitCode := 1, writtenFiles := [] } ∧
    export_runner_main .all [] cpEnvBadTok appEnvOk =
      { exitCode := 1, writtenFiles := [] } := by
  have h := c7_auth_failure_aborts_run cpEnvBadTok appEnvOk "bad creds" rfl rfl
  exact ⟨h.1, h.2.2.1, h.2.2.2⟩

/-- Claim C8: for a fixed display name, the manifest filename builders of
both exporters are injective in the object id — two objects with the same
display name but distinct ids get distinct filenames. -/
theorem c8_filenames_injective_in_id (name : String) (id1 id2 : String)
    (h : id1 ≠ id2) :
    app_manifest_filename name id1 ≠ app_manifest_filename name id2 ∧
    cp_manifest_filename name id1 ≠ cp_manifest_filename name id2 := by
  constructor
  · intro heq
    apply h
    unfold app_manifest_filename at heq
    have hd := congrArg String.data heq
    simp only [String.data_append, List.append_assoc] at hd
    exact String.ext (List.append_cancel_right
      (List.append_cancel_left (List.append_cancel_left hd)))
  · intro heq
    apply h
    unfold cp_manifest_filename at heq
    have hd := congrArg String.data heq
    simp only [String.data_append, List.append_assoc] at hd
    exact String.ext (List.append_cancel_right
      (List.append_cancel_left (List.append_cancel_left hd)))

/-- Claim C8, witness: the name "Baseline" with the distinct ids "a" and
"b". -/
theorem c8_filenames_injective_witness :
    app_manifest_filename "Baseline" "a" ≠ app_manifest_filename "Baseline" "b" ∧
    cp_manifest_filename "Baseline" "a" ≠ cp_manifest_filename "Baseline" "b" :=
  c8_filenames_injective_in_id "Baseline" "a" "b" (by decide)

/-- Claim C10: with the module selector `applications` (alone or via
`all`) and a valid configuration, the applications branch returns the
empty list, writes no manifest file, exits with code 0, and the run's
outcome is independent of the entire application-exporter world (the
`ApplicationExporter` is never constructed or consulted); under `all` the
outcome coincides with the compliance-only run. -/
theorem c10_applications_branch_inert (cpenv : CPEnv) (appenv1 appenv2 : AppEnv) :
    run_applications_export appenv1 = [] ∧
    export_runner_main .applications [] cpenv appenv1 =
      { exitCode := 0, writtenFiles := [] } ∧
    export_runner_main .applications [] cpenv appenv1 =
      export_runner_main .applications [] cpenv appenv2 ∧
    export_runner_main .all [] cpenv appenv1 =
      export_runner_main .all [] cpenv appenv2 ∧
    (export_runner_main .all [] cpenv appenv1).writtenFiles =
      (export_runner_main .compliance_policies [] cpenv appenv1).writtenFiles ∧
    (export_runner_main .all [] cpenv appenv1).exitCode =
      (export_runner_main .compliance_policies [] cpenv appenv1).exitCode := by
  refine ⟨rfl, rfl, rfl, ?_, ?_, ?_⟩
  · unfold export_runner_main
    cases h : cp_export_all cpenv <;> simp [h]
  · unfold export_runner_main run_compliance_export
    cases h : cp_export_all cpenv <;> simp [h, run_applications_export]
  · unfold export_runner_main run_compliance_export
    cases h : cp_export_all cpenv <;> simp [h, run_applications_export]
